import Mathlib

set_option maxRecDepth 10000

/-
Shallow embedding of the signal/scoring engine of the etf-challenger
repository: src/etf_challenger/analysis/advisor.py (TradingAdvisor),
src/etf_challenger/analysis/analyzer.py (ETFAnalyzer) and
src/etf_challenger/recommendation/scorer.py (ETFScorer).

Machine floats are modelled as exact rationals.  The float value NaN,
which pandas produces for rolling-window outputs with insufficient
history, is modelled by `Option ℚ` with `none` standing for NaN; every
ordering comparison involving NaN is false in IEEE-754 and in pandas,
which the `pf…` comparison helpers below reproduce.
-/

/-- A pandas/NumPy float cell: `none` models NaN (an undefined indicator value). -/
abbrev PF := Option ℚ

/-- Float `<` on cells; any comparison with NaN is false. -/
def pfLt : PF → PF → Bool
  | some a, some b => decide (a < b)
  | _, _ => false

/-- Float `≤` on cells; any comparison with NaN is false. -/
def pfLe : PF → PF → Bool
  | some a, some b => decide (a ≤ b)
  | _, _ => false

/-- Float `>` on cells; any comparison with NaN is false. -/
def pfGt (a b : PF) : Bool := pfLt b a

/-- Float `≥` on cells; any comparison with NaN is false. -/
def pfGe (a b : PF) : Bool := pfLe b a

/-- Float subtraction on cells; NaN propagates. -/
def pfSub : PF → PF → PF
  | some a, some b => some (a - b)
  | _, _ => none

/-- Float addition on cells; NaN propagates. -/
def pfAdd : PF → PF → PF
  | some a, some b => some (a + b)
  | _, _ => none

/-- Halving a cell; NaN propagates (used for the Bollinger middle-band fallback). -/
def pfHalf : PF → PF
  | some a => some (a / 2)
  | none => none

/-- Mean of a list of rationals.  pandas gives NaN for the empty mean while this
gives 0; every use below either excludes the empty list or reaches the same
result on both readings (noted at the use site). -/
def qmean (xs : List ℚ) : ℚ := xs.sum / xs.length

/-- The last `n` entries of a list: pandas `tail(n)`. -/
def lastN (n : ℕ) (xs : List ℚ) : List ℚ := xs.drop (xs.length - n)

/-- Last entry of pandas `rolling(w).mean()` over a series, per
ETFAnalyzer.calculate_moving_averages: defined (non-NaN) exactly when the series
has at least `w` entries, in which case it is the mean of the trailing `w`. -/
def rollingMeanLast (w : ℕ) (xs : List ℚ) : PF :=
  if w ≤ xs.length ∧ 0 < w then some (qmean (lastN w xs)) else none

/-- pandas sample variance (ddof = 1, the square of `Series.std()`): NaN on fewer
than two entries. -/
def sampleVar (xs : List ℚ) : PF :=
  if xs.length < 2 then none
  else some ((xs.map (fun x => (x - qmean xs) ^ 2)).sum / ((xs.length : ℚ) - 1))

/-- Last entry of pandas `rolling(w).std() ^ 2` over a series (the variance of the
trailing `w` entries); NaN when fewer than `w` entries exist. -/
def rollingVarLast (w : ℕ) (xs : List ℚ) : PF :=
  if w ≤ xs.length then sampleVar (lastN w xs) else none

/-- `Series.pct_change().dropna()`: consecutive relative changes.  Division here
is exact rational division; the embedding is used on positive price series
(hypotheses in the theorems), where it agrees with float semantics. -/
def pctChanges : List ℚ → List ℚ
  | [] => []
  | [_] => []
  | a :: b :: rest => (b - a) / a :: pctChanges (b :: rest)

/-- ETFAnalyzer.calculate_rsi gain column `delta.where(delta > 0, 0)`: the first
diff is NaN and `NaN > 0` is false, so the first entry is 0, as in pandas. -/
def gainList : List ℚ → List ℚ
  | [] => []
  | c => 0 :: (c.zip c.tail).map fun p => if p.1 < p.2 then p.2 - p.1 else 0

/-- ETFAnalyzer.calculate_rsi loss column `-delta.where(delta < 0, 0)`, first
entry 0 as for `gainList`. -/
def lossList : List ℚ → List ℚ
  | [] => []
  | c => 0 :: (c.zip c.tail).map fun p => if p.2 < p.1 then p.1 - p.2 else 0

/-- Last RSI value per ETFAnalyzer.calculate_rsi (period 14): RSI = 100 − 100/(1+RS)
with RS = avg_gain/avg_loss over 14-wide rolling means.  pandas float semantics
for the division are folded in: avg_loss = 0 with avg_gain > 0 gives RS = +∞
hence RSI = 100 − 100/∞ = 100; 0/0 gives NaN hence RSI is NaN. -/
def rsiLast (closes : List ℚ) : PF :=
  match rollingMeanLast 14 (gainList closes), rollingMeanLast 14 (lossList closes) with
  | some g, some l =>
      if 0 < l then some (100 - 100 / (1 + g / l))
      else if 0 < g then some 100
      else none
  | _, _ => none

/-- advisor.SignalType. -/
inductive SignalType
  | STRONG_BUY
  | BUY
  | HOLD
  | SELL
  | STRONG_SELL
deriving DecidableEq, Repr

/-- advisor.IndicatorSignal. -/
inductive IndicatorSignal
  | BULLISH
  | NEUTRAL
  | BEARISH
deriving DecidableEq, Repr

/-- TradingAdvisor._analyze_rsi (advisor.py lines 161-199) as a function of the
last cell of the RSI column; the column-missing case is handled by the caller.
The branch order is that of the source: the `rsi < 30` and `rsi > 70` tests come
before `rsi < 20` and `rsi > 80`. -/
def analyze_rsi (rsi : PF) : IndicatorSignal × ℚ :=
  match rsi with
  | none => (IndicatorSignal.NEUTRAL, 0)
  | some r =>
    if r < 30 then (IndicatorSignal.BULLISH, 8/10)
    else if r < 20 then (IndicatorSignal.BULLISH, 1)
    else if 70 < r then (IndicatorSignal.BEARISH, -(8/10))
    else if 80 < r then (IndicatorSignal.BEARISH, -1)
    else if 40 ≤ r ∧ r ≤ 60 then (IndicatorSignal.NEUTRAL, 0)
    else if 30 ≤ r ∧ r < 40 then (IndicatorSignal.BULLISH, 3/10)
    else if 60 < r ∧ r ≤ 70 then (IndicatorSignal.BEARISH, -(3/10))
    else (IndicatorSignal.NEUTRAL, 0)

/-- TradingAdvisor._analyze_ma_cross (advisor.py lines 133-159).  `n` is the frame
length; `ma5`/`ma20` are the MA columns at the last row and `ma5l2`/`ma20l2` at the
second-to-last row (the source falls back to the last row when the frame has a
single row). -/
def analyze_ma_cross (n : ℕ) (ma5 ma20 ma5l2 ma20l2 : PF) : IndicatorSignal × ℚ :=
  let ma5p := if 1 < n then ma5l2 else ma5
  let ma20p := if 1 < n then ma20l2 else ma20
  if pfLe ma5p ma20p && pfGt ma5 ma20 then (IndicatorSignal.BULLISH, 1)
  else if pfGe ma5p ma20p && pfLt ma5 ma20 then (IndicatorSignal.BEARISH, -1)
  else if pfGt ma5 ma20 then (IndicatorSignal.BULLISH, 1/2)
  else if pfLt ma5 ma20 then (IndicatorSignal.BEARISH, -(1/2))
  else (IndicatorSignal.NEUTRAL, 0)

/-- TradingAdvisor._analyze_macd (advisor.py lines 201-229).  `hist` is the
Histogram cell when that column exists, otherwise `macd - sig` (resolved by the
caller); `macdl2`/`sigl2` are the second-to-last cells with single-row fallback. -/
def analyze_macd (n : ℕ) (macd sig hist macdl2 sigl2 : PF) : IndicatorSignal × ℚ :=
  let macdp := if 1 < n then macdl2 else macd
  let sigp := if 1 < n then sigl2 else sig
  if pfLe macdp sigp && pfGt macd sig then (IndicatorSignal.BULLISH, 1)
  else if pfGe macdp sigp && pfLt macd sig then (IndicatorSignal.BEARISH, -1)
  else if pfGt macd (some 0) && pfGt hist (some 0) then (IndicatorSignal.BULLISH, 6/10)
  else if pfLt macd (some 0) && pfLt hist (some 0) then (IndicatorSignal.BEARISH, -(6/10))
  else (IndicatorSignal.NEUTRAL, 0)

/-- TradingAdvisor._analyze_bollinger (advisor.py lines 231-257) as a function of
the last close and the last cells of the band columns. -/
def analyze_bollinger (price : ℚ) (upper lower middle : PF) : IndicatorSignal × ℚ :=
  if pfLe (some price) lower then (IndicatorSignal.BULLISH, 8/10)
  else if pfGe (some price) upper then (IndicatorSignal.BEARISH, -(8/10))
  else if pfLt (some price) middle then (IndicatorSignal.BULLISH, 3/10)
  else if pfGt (some price) middle then (IndicatorSignal.BEARISH, -(3/10))
  else (IndicatorSignal.NEUTRAL, 0)

/-- TradingAdvisor._analyze_trend (advisor.py lines 259-289).  For a window of
n ≥ 2 points the np.polyfit degree-1 coefficient is the least-squares slope,
whose closed form over x = 0..n−1 is (n·Σxy − Σx·Σy)/(n·Σx² − (Σx)²), a
rational.  For fewer than two bars np.polyfit raises (empty input vector, or a
zero-norm scaling column producing NaN that the SVD rejects), modelled as
`none`. -/
def analyze_trend (closes : List ℚ) : Option (IndicatorSignal × ℚ) :=
  let n := min 20 closes.length
  let prices := lastN n closes
  if n < 2 then none
  else
    let m : ℚ := n
    let xs : List ℚ := (List.range n).map (fun i => (i : ℚ))
    let sx := xs.sum
    let sy := prices.sum
    let sxy := ((xs.zip prices).map (fun p => p.1 * p.2)).sum
    let sxx := (xs.map (fun x => x ^ 2)).sum
    let slope : ℚ := (m * sxy - sx * sy) / (m * sxx - sx ^ 2)
    let chg : ℚ := (prices.getLast?.getD 0 - prices.head?.getD 0) / prices.head?.getD 0 * 100
    if 0 < slope ∧ 5 < chg then some (IndicatorSignal.BULLISH, 8/10)
    else if 0 < slope ∧ 0 < chg then some (IndicatorSignal.BULLISH, 1/2)
    else if slope < 0 ∧ chg < -5 then some (IndicatorSignal.BEARISH, -(8/10))
    else if slope < 0 ∧ chg < 0 then some (IndicatorSignal.BEARISH, -(1/2))
    else some (IndicatorSignal.NEUTRAL, 0)

/-- TradingAdvisor._analyze_volume (advisor.py lines 291-318).  `vols` is the
volume column.  On an empty column pandas means are NaN, `NaN == 0` is false and
every later NaN comparison is false, ending in (NEUTRAL, 0); here the empty mean
is 0 and the first guard fires, giving the same value. -/
def analyze_volume (vols closes : List ℚ) : IndicatorSignal × ℚ :=
  let recent := qmean (lastN 5 vols)
  let avg := qmean vols
  if recent = 0 ∨ avg = 0 then (IndicatorSignal.NEUTRAL, 0)
  else
    let vr := recent / avg
    let pc : ℚ :=
      if 1 < closes.length then
        closes.getLast?.getD 0 - closes.dropLast.getLast?.getD 0
      else 0
    if 3/2 < vr ∧ 0 < pc then (IndicatorSignal.BULLISH, 7/10)
    else if 3/2 < vr ∧ pc < 0 then (IndicatorSignal.BEARISH, -(7/10))
    else if vr < 7/10 ∧ 0 < pc then (IndicatorSignal.NEUTRAL, 2/10)
    else (IndicatorSignal.NEUTRAL, 0)

/-- TradingAdvisor._analyze_premium (advisor.py lines 320-339). -/
def analyze_premium (p : ℚ) : IndicatorSignal × ℚ :=
  if p < -3 then (IndicatorSignal.BULLISH, 8/10)
  else if p < -1 then (IndicatorSignal.BULLISH, 1/2)
  else if 3 < p then (IndicatorSignal.BEARISH, -(8/10))
  else if 1 < p then (IndicatorSignal.BEARISH, -(1/2))
  else (IndicatorSignal.NEUTRAL, 0)

/-- TradingAdvisor._get_signal_type (advisor.py lines 341-354). -/
def get_signal_type (s : ℚ) : SignalType × ℚ :=
  let conf := |s|
  if 6/10 ≤ s then (SignalType.STRONG_BUY, min (conf * 100) 95)
  else if 2/10 ≤ s then (SignalType.BUY, min (conf * 100) 80)
  else if s ≤ -(6/10) then (SignalType.STRONG_SELL, min (conf * 100) 95)
  else if s ≤ -(2/10) then (SignalType.SELL, min (conf * 100) 80)
  else (SignalType.HOLD, 50)

/-- Three-way zipWith, used for the true-range computation. -/
def zipWith3 (f : α → β → γ → δ) : List α → List β → List γ → List δ
  | a :: as, b :: bs, c :: cs => f a b c :: zipWith3 f as bs cs
  | _, _, _ => []

/-- True range of a bar against the previous close:
max(high − low, |high − prev_close|, |low − prev_close|). -/
def trueRange (hi lo cp : ℚ) : ℚ := max (hi - lo) (max |hi - cp| |lo - cp|)

/-- Round-half-to-even to an integer, the rounding mode of the Python built-in
`round` (idealized to exact decimal arithmetic; the concrete inputs used below
are exactly representable). -/
def roundHalfEven (x : ℚ) : ℤ :=
  let f := ⌊x⌋
  if x - f < 1/2 then f
  else if 1/2 < x - f then f + 1
  else if f % 2 = 0 then f else f + 1

/-- Python `round(x, 3)` on rationals. -/
def pyRound3 (x : ℚ) : ℚ := (roundHalfEven (x * 1000) : ℚ) / 1000

/-- TradingAdvisor._calculate_price_levels (advisor.py lines 436-467).  `n` is the
frame length (`len(df)`).  The close column shifted within the trailing-14
window has a NaN first entry; the two np.maximum calls (fused into one match)
propagate it, and the pandas mean skips it, so the ATR is the mean of the 13
true ranges formed inside the window. -/
def calculate_price_levels (price : ℚ) (st : SignalType)
    (highs lows closes : List ℚ) (n : ℕ) : Option ℚ × Option ℚ :=
  if n < 14 then (none, none)
  else
    let h := lastN 14 highs
    let l := lastN 14 lows
    let c := lastN 14 closes
    let cshift : List PF := none :: c.dropLast.map some
    let tr : List PF := zipWith3 (fun hi lo cs => cs.map (fun cp => trueRange hi lo cp)) h l cshift
    let atr := qmean (tr.filterMap id)
    match st with
    | SignalType.STRONG_BUY | SignalType.BUY =>
        (some (pyRound3 (price + 2 * atr)), some (pyRound3 (price - atr)))
    | SignalType.STRONG_SELL | SignalType.SELL =>
        (some (pyRound3 (price - 2 * atr)), some (pyRound3 (price + atr)))
    | SignalType.HOLD => (none, none)

/-- The indicator-augmented DataFrame as read by TradingAdvisor.analyze.  Raw
price/volume columns hold exact rationals; an indicator column may be absent
(outer `none`, the `in df.columns` test) and its cells may be NaN (inner
`none`). -/
structure Frame where
  close : List ℚ
  high : List ℚ
  low : List ℚ
  volume : Option (List ℚ)
  ma5 : Option (List PF)
  ma20 : Option (List PF)
  rsi : Option (List PF)
  macd : Option (List PF)
  signal : Option (List PF)
  histogram : Option (List PF)
  bbUpper : Option (List PF)
  bbLower : Option (List PF)
  bbMiddle : Option (List PF)
deriving DecidableEq, Repr

/-- Last cell of an indicator column, pandas `iloc[-1]`. -/
def colLast (col : List PF) : PF := (col.getLast?).getD none

/-- Second-to-last cell of an indicator column, pandas `iloc[-2]`. -/
def colPrev (col : List PF) : PF := (col.dropLast.getLast?).getD none

/-- The MA-cross sub-signal of a frame (column-missing guard of advisor.py line 135). -/
def maCrossOfFrame (f : Frame) : IndicatorSignal × ℚ :=
  match f.ma5, f.ma20 with
  | some c5, some c20 =>
      analyze_ma_cross f.close.length (colLast c5) (colLast c20) (colPrev c5) (colPrev c20)
  | _, _ => (IndicatorSignal.NEUTRAL, 0)

/-- The RSI sub-signal of a frame (column-missing guard of advisor.py line 163). -/
def rsiOfFrame (f : Frame) : IndicatorSignal × ℚ :=
  match f.rsi with
  | some c => analyze_rsi (colLast c)
  | none => (IndicatorSignal.NEUTRAL, 0)

/-- The MACD sub-signal of a frame, with the Histogram fallback of advisor.py line 208. -/
def macdOfFrame (f : Frame) : IndicatorSignal × ℚ :=
  match f.macd, f.signal with
  | some cm, some cs =>
      let hist := match f.histogram with
        | some ch => colLast ch
        | none => pfSub (colLast cm) (colLast cs)
      analyze_macd f.close.length (colLast cm) (colLast cs) hist (colPrev cm) (colPrev cs)
  | _, _ => (IndicatorSignal.NEUTRAL, 0)

/-- The Bollinger sub-signal of a frame, with the middle-band fallback of
advisor.py line 239. -/
def bollingerOfFrame (f : Frame) : IndicatorSignal × ℚ :=
  match f.bbUpper, f.bbLower with
  | some cu, some cl =>
      let mid := match f.bbMiddle with
        | some cm => colLast cm
        | none => pfHalf (pfAdd (colLast cu) (colLast cl))
      analyze_bollinger (f.close.getLast?.getD 0) (colLast cu) (colLast cl) mid
  | _, _ => (IndicatorSignal.NEUTRAL, 0)

/-- The volume sub-signal of a frame (column-missing guard of advisor.py line 293). -/
def volumeOfFrame (f : Frame) : IndicatorSignal × ℚ :=
  match f.volume with
  | some v => analyze_volume v f.close
  | none => (IndicatorSignal.NEUTRAL, 0)

/-- The modelled fields of advisor.TradingSignal. -/
structure AnalysisResult where
  finalScore : ℚ
  category : SignalType
  confidence : ℚ
  priceTarget : Option ℚ
  stopLoss : Option ℚ
deriving DecidableEq, Repr

/-- TradingAdvisor.analyze (advisor.py lines 51-131), with the fixed weights of
TradingAdvisor.__init__ (lines 40-49).  `none` models the exception raised on a
series of fewer than two bars (np.polyfit in _analyze_trend fails on an empty
vector and on the NaN-scaled one-bar system; close.iloc[-1] also fails on an
empty frame).  The reasons list, the per-indicator string map and the
risk-level string are presentation fields that do not feed any modelled field
and are not modelled.  The weighted sum and its normalization (lines 66-110)
are split into this helper. -/
def analyzeFinalScore (f : Frame) (premiumRate : Option ℚ) (tscore : ℚ) : ℚ :=
  ((maCrossOfFrame f).2 * 20 + (rsiOfFrame f).2 * 15 + (macdOfFrame f).2 * 20 +
      (bollingerOfFrame f).2 * 15 + tscore * 15 + (volumeOfFrame f).2 * 10 +
      (match premiumRate with
       | some p => (analyze_premium p).2 * 5
       | none => 0)) /
    (match premiumRate with
     | some _ => 100
     | none => 95)

/-- TradingAdvisor.analyze continued: category, confidence and price levels from
the weighted final score. -/
def analyze (f : Frame) (premiumRate : Option ℚ) : Option AnalysisResult :=
  match analyze_trend f.close with
  | none => none
  | some ts =>
    let finalScore := analyzeFinalScore f premiumRate ts.2
    let sc := get_signal_type finalScore
    let price := f.close.getLast?.getD 0
    let pl := calculate_price_levels price sc.1 f.high f.low f.close f.close.length
    some ⟨finalScore, sc.1, sc.2, pl.1, pl.2⟩

/-- Trend sub-score of a frame with a default for the raising case; used only to
state the aggregation theorem, where the analysis is assumed to succeed. -/
def trendScoreD (f : Frame) : ℚ := ((analyze_trend f.close).getD (IndicatorSignal.NEUTRAL, 0)).2

/-- _analyze_ma_cross on a series carrying the MA5/MA20 columns computed by
ETFAnalyzer.calculate_moving_averages: the second-to-last cell of a rolling
column over `closes` is its last cell over `closes.dropLast`. -/
def maCrossOnSeries (closes : List ℚ) : IndicatorSignal × ℚ :=
  analyze_ma_cross closes.length (rollingMeanLast 5 closes) (rollingMeanLast 20 closes)
    (rollingMeanLast 5 closes.dropLast) (rollingMeanLast 20 closes.dropLast)

/-- _analyze_bollinger on a series carrying the Bollinger columns computed by
ETFAnalyzer.calculate_bollinger_bands (window 20, 2 standard deviations).  The
bands are middle ± 2·√variance, irrational in general, so the band comparisons
are decided by sign analysis and squaring, which is exact: for variance v ≥ 0,
price ≤ middle − 2√v iff price ≤ middle and 4v ≤ (middle − price)², and
symmetrically for the upper band.  Undefined bands (fewer than 20 bars) compare
false, exactly as NaN does in the source. -/
def bollingerOnSeries (closes : List ℚ) : IndicatorSignal × ℚ :=
  match rollingMeanLast 20 closes, rollingVarLast 20 closes with
  | some m, some v =>
      let p := closes.getLast?.getD 0
      if p ≤ m ∧ 4 * v ≤ (m - p) ^ 2 then (IndicatorSignal.BULLISH, 8/10)
      else if m ≤ p ∧ 4 * v ≤ (p - m) ^ 2 then (IndicatorSignal.BEARISH, -(8/10))
      else if p < m then (IndicatorSignal.BULLISH, 3/10)
      else if m < p then (IndicatorSignal.BEARISH, -(3/10))
      else (IndicatorSignal.NEUTRAL, 0)
  | _, _ => (IndicatorSignal.NEUTRAL, 0)

/-- The `volatility > 0` guard of the Sharpe expression in
ETFAnalyzer.analyze_performance (analyzer.py line 217).  The annualized
volatility is 100·√252·√variance of the daily returns, so the guard holds iff
that sample variance is positive; a NaN variance (fewer than two returns)
compares false.  When the guard is false the source returns a Sharpe ratio of
exactly 0. -/
def sharpeVolGuard (closes : List ℚ) : Bool :=
  pfLt (some 0) (sampleVar (pctChanges closes))

/-- scorer.ScoringStrategy. -/
inductive ScoringStrategy
  | CONSERVATIVE
  | BALANCED
  | AGGRESSIVE
deriving DecidableEq, Repr

/-- The last row of the indicator DataFrame as read by
ETFScorer._calculate_technical_score.  An indicator field is `none` when its
column is absent or its last cell is NaN: the source skips the group in either
case, so the two are conflated.  The close cell may itself be NaN (`PF`); the
close column is assumed present (its absence would take the KeyError path of
the bare try/except, returning 50). -/
structure TechRow where
  close : PF
  ma5 : Option ℚ
  ma20 : Option ℚ
  rsi : Option ℚ
  macd : Option ℚ
  signal : Option ℚ
deriving DecidableEq, Repr

/-- ETFScorer._calculate_return_score (scorer.py lines 149-182). -/
def calc_return_score (annual_return sharpe : ℚ) : ℚ :=
  let return_part : ℚ :=
    if 30 ≤ annual_return then 20
    else if annual_return ≤ -10 then 0
    else (annual_return + 10) / 40 * 20
  let sharpe_part : ℚ :=
    if 2 ≤ sharpe then 80
    else if sharpe ≤ 0 then 0
    else sharpe / 2 * 80
  return_part + sharpe_part

/-- ETFScorer._calculate_risk_score (scorer.py lines 184-217). -/
def calc_risk_score (volatility max_drawdown : ℚ) : ℚ :=
  let vol_part : ℚ :=
    if volatility ≤ 10 then 60
    else if 50 ≤ volatility then 0
    else (50 - volatility) / 40 * 60
  let drawdown_part : ℚ :=
    if max_drawdown ≤ 5 then 40
    else if 40 ≤ max_drawdown then 0
    else (40 - max_drawdown) / 35 * 40
  vol_part + drawdown_part

/-- ETFScorer._calculate_fee_score (scorer.py lines 219-239). -/
def calc_fee_score (fee_rate : ℚ) : ℚ :=
  if fee_rate ≤ 15/100 then 100
  else if 6/10 ≤ fee_rate then 0
  else (6/10 - fee_rate) / (45/100) * 100

/-- MA-trend points of _calculate_technical_score (scorer.py lines 264-278); the
chained Python comparison current_price > ma5 > ma20 is (price > ma5) and
(ma5 > ma20), where ma5/ma20 are known non-NaN here. -/
def maPoints (price : PF) (m5 m20 : ℚ) : ℚ :=
  if pfGt price (some m5) && decide (m20 < m5) then 30
  else if pfGt price (some m5) then 20
  else if pfGt price (some m20) then 10
  else 0

/-- RSI-band points of _calculate_technical_score (scorer.py lines 281-296).  The
four source bands cover every real, so the final 0 branch is unreachable. -/
def rsiPoints (r : ℚ) : ℚ :=
  if 40 ≤ r ∧ r ≤ 60 then 30
  else if (30 ≤ r ∧ r < 40) ∨ (60 < r ∧ r ≤ 70) then 20
  else if r < 30 then 15
  else if 70 < r then 5
  else 0

/-- MACD points of _calculate_technical_score (scorer.py lines 299-318). -/
def macdPoints (m s : ℚ) : ℚ :=
  let d := m - s
  if 0 < d ∧ 0 < m then 40
  else if 0 < d then 30
  else if 0 < m then 20
  else 10

/-- The MA group of _calculate_technical_score: its (points, count increment)
when both MA columns carry defined last-row values, else (0, 0). -/
def techGroup1 (cl : PF) : Option ℚ → Option ℚ → ℚ × ℚ
  | some m5, some m20 => (maPoints cl m5 m20, 1)
  | _, _ => (0, 0)

/-- The RSI group of _calculate_technical_score. -/
def techGroup2 : Option ℚ → ℚ × ℚ
  | some x => (rsiPoints x, 1)
  | none => (0, 0)

/-- The MACD group of _calculate_technical_score. -/
def techGroup3 : Option ℚ → Option ℚ → ℚ × ℚ
  | some m, some s => (macdPoints m s, 1)
  | _, _ => (0, 0)

/-- ETFScorer._calculate_technical_score (scorer.py lines 241-328).  `none` covers
both a `None` DataFrame and an empty one (both return 50).  Each present group
adds its points and bumps the indicator count; the final score is
min(100, score / count × 100/100), or 50 when no group is present. -/
def calc_technical_score : Option TechRow → ℚ
  | none => 50
  | some r =>
    let p1 := techGroup1 r.close r.ma5 r.ma20
    let p2 := techGroup2 r.rsi
    let p3 := techGroup3 r.macd r.signal
    let score := p1.1 + p2.1 + p3.1
    let cnt := p1.2 + p2.2 + p3.2
    if 0 < cnt then min 100 (score / cnt * 100 / 100) else 50

/-- ETFScorer.STRATEGY_WEIGHTS (scorer.py lines 51-73), as
(return, risk, liquidity, fee, technical). -/
def strategyWeights : ScoringStrategy → ℚ × ℚ × ℚ × ℚ × ℚ
  | ScoringStrategy.CONSERVATIVE => (20/100, 35/100, 25/100, 15/100, 5/100)
  | ScoringStrategy.BALANCED => (30/100, 25/100, 20/100, 15/100, 10/100)
  | ScoringStrategy.AGGRESSIVE => (45/100, 10/100, 15/100, 10/100, 20/100)

/-- scorer.ScoreBreakdown (numeric fields). -/
structure ScoreBreakdown where
  total_score : ℚ
  return_score : ℚ
  risk_score : ℚ
  liquidity_score : ℚ
  fee_score : ℚ
  technical_score : ℚ
deriving DecidableEq, Repr

/-- ETFScorer.calculate_score (scorer.py lines 85-147).  The liquidity score is
passed through unchanged; `df = none` takes the source value 50.0 (the outer
`if df is not None` and the inner None-check of _calculate_technical_score
return the same value).  The unused etf_code/etf_name/scale parameters are
omitted. -/
def calculate_score (strat : ScoringStrategy)
    (annual_return sharpe volatility max_drawdown liquidity fee_rate : ℚ)
    (df : Option TechRow) : ScoreBreakdown :=
  let rs := calc_return_score annual_return sharpe
  let ks := calc_risk_score volatility max_drawdown
  let fs := calc_fee_score fee_rate
  let ts := calc_technical_score df
  let w := strategyWeights strat
  let total := rs * w.1 + ks * w.2.1 + liquidity * w.2.2.1 + fs * w.2.2.2.1 + ts * w.2.2.2.2
  ⟨total, rs, ks, liquidity, fs, ts⟩

/-- Clamp of a rational to an interval, for stating the spec formulas. -/
def clampQ (x lo hi : ℚ) : ℚ := max lo (min x hi)

/-- The ATR actually computed by _calculate_price_levels, written independently
of the source structure: the mean of the 13 true ranges formed inside the
trailing 14-bar window (the first window bar has no in-window previous close
and contributes none). -/
def atr_trailing13 (highs lows closes : List ℚ) : ℚ :=
  (zipWith3 trueRange ((lastN 14 highs).drop 1) ((lastN 14 lows).drop 1)
    ((lastN 14 closes).dropLast)).sum / 13

/-- Modelled from the spec wording of the price-target rule: the mean over the
trailing 14 bars of the true range taken against the true previous close of
each bar (so the previous close of the first window bar comes from the bar
before the window).  This is the reading the claim asserts; it is compared with
the source computation. -/
def atr_spec14 (highs lows closes : List ℚ) : ℚ :=
  (zipWith3 trueRange (lastN 14 highs) (lastN 14 lows)
    ((lastN 15 closes).dropLast)).sum / 14

/-- Concrete close series for the RSI dead-branch evaluation: one gain of 1
followed by thirteen losses of 1, so over the last 14 diffs the average gain is
1/14 and the average loss 13/14, giving RS = 1/13 and RSI = 50/7 < 20. -/
def c1closes : List ℚ :=
  [100, 101, 100, 99, 98, 97, 96, 95, 94, 93, 92, 91, 90, 89, 88]

/-- A two-bar frame with no indicator columns: the smallest frame the classifier
analyzes without raising. -/
def c6frame : Frame :=
  ⟨[10, 11], [10, 11], [10, 11], none, none, none, none, none, none, none, none, none, none⟩

/-- Closes 100..119 for the price-level counterexample. -/
def c7closes : List ℚ :=
  [100, 101, 102, 103, 104, 105, 106, 107, 108, 109,
   110, 111, 112, 113, 114, 115, 116, 117, 118, 119]

/-- Highs close+1, except bar 6 (the first bar of the trailing 14-bar window),
whose range is widened to 26 so that the dropped first true range is visible. -/
def c7highs : List ℚ :=
  [101, 102, 103, 104, 105, 106, 119, 108, 109, 110,
   111, 112, 113, 114, 115, 116, 117, 118, 119, 120]

/-- Lows close−1, except bar 6. -/
def c7lows : List ℚ :=
  [99, 100, 101, 102, 103, 104, 93, 106, 107, 108,
   109, 110, 111, 112, 113, 114, 115, 116, 117, 118]

/-- The MA5 column of `c7closes` as ETFAnalyzer.calculate_moving_averages fills
it: NaN before index 4, then the trailing 5-mean (the middle of five
consecutive integers). -/
def c7ma5 : List PF :=
  [none, none, none, none, some 102, some 103, some 104, some 105, some 106,
   some 107, some 108, some 109, some 110, some 111, some 112, some 113,
   some 114, some 115, some 116, some 117]

/-- The MA20 column of `c7closes`: only the last cell is defined, the mean of
100..119. -/
def c7ma20 : List PF :=
  [none, none, none, none, none, none, none, none, none, none, none, none,
   none, none, none, none, none, none, none, some (219/2)]

/-- A 20-bar frame with honestly computed MA5/MA20 columns and no other
indicator columns, rising linearly: the classifier rates it BUY. -/
def c7frame : Frame :=
  ⟨c7closes, c7highs, c7lows, none, some c7ma5, some c7ma20,
   none, none, none, none, none, none, none⟩


set_option maxHeartbeats 1600000

/-- C1: the claim maps RSI < 20 to BULLISH strength 1.0 and RSI > 80 to BEARISH
strength −1.0.  On the series `c1closes` the computed RSI is 50/7 < 20, yet the
classifier returns strength 0.8: the source tests `rsi < 30` (line 172) before
`rsi < 20` (line 176), and `rsi > 70` (line 180) before `rsi > 80` (line 184),
so the severe-oversold and severe-overbought branches commented in the source
are unreachable. -/
theorem C1_rsi_dead_branches :
    rsiLast c1closes = some (50/7) ∧ (50/7 : ℚ) < 20 ∧
    analyze_rsi (rsiLast c1closes) = (IndicatorSignal.BULLISH, 8/10) ∧
    analyze_rsi (some 85) = (IndicatorSignal.BEARISH, -(8/10)) := by
  have h : rsiLast c1closes = some (50/7) := by
    norm_num [rsiLast, gainList, lossList, rollingMeanLast, lastN, qmean, c1closes, List.zip]
  refine ⟨h, by norm_num, ?_, by norm_num [analyze_rsi]⟩
  rw [h]
  norm_num [analyze_rsi]

/-- C2 counterexample: on the constant series of twenty bars at price 10,
carrying its computed Bollinger columns, the Bollinger sub-signal is BULLISH
with strength 0.8 — the zero-width band makes price ≤ lower band fire — and not
NEUTRAL with strength 0 as the claim states. -/
theorem C2_counterexample :
    bollingerOnSeries (List.replicate 20 (10 : ℚ)) = (IndicatorSignal.BULLISH, 8/10) ∧
    bollingerOnSeries (List.replicate 20 (10 : ℚ)) ≠ (IndicatorSignal.NEUTRAL, 0) := by
  have h : bollingerOnSeries (List.replicate 20 (10 : ℚ)) = (IndicatorSignal.BULLISH, 8/10) := by
    norm_num [bollingerOnSeries, rollingMeanLast, rollingVarLast, sampleVar, lastN, qmean,
      List.replicate, List.getLast?]
  exact ⟨h, by rw [h]; exact fun hc => by simpa using congrArg Prod.fst hc⟩

/-- C3 counterexample: a liquidity score of 150 is passed through unclamped, so
the returned liquidity sub-score lies outside [0,100], against the claim that
every sub-score is in [0,100] for any liquidity input. -/
theorem C3_counterexample :
    (calculate_score ScoringStrategy.BALANCED 0 0 0 0 150 1 none).liquidity_score = 150 ∧
    ¬ (calculate_score ScoringStrategy.BALANCED 0 0 0 0 150 1 none).liquidity_score ≤ 100 := by
  refine ⟨by norm_num [calculate_score], by norm_num [calculate_score]⟩

/-- C4 counterexample: the drawdown component uses the signed drawdown, not its
magnitude.  At volatility 20, a drawdown of −30 scores 85 (the full 40 drawdown
points) while +30 scores 395/7, refuting both the |max_drawdown| formula of the
claim and the asserted equality of −30 and +30. -/
theorem C4_counterexample :
    calc_risk_score 20 (-30) ≠
      clampQ ((50 - 20) / 40 * 60) 0 60 + clampQ ((40 - |(-30 : ℚ)|) / 35 * 40) 0 40 ∧
    calc_risk_score 20 (-30) ≠ calc_risk_score 20 30 := by
  refine ⟨by norm_num [calc_risk_score, clampQ], by norm_num [calc_risk_score]⟩

/-- C7 counterexample: on the 20-bar frame `c7frame` the classifier returns BUY
with price target 123 = close + 2 × 2, where 2 is the mean of the 13 true
ranges formed inside the trailing 14-bar window; the claim's ATR — the mean
over all 14 trailing bars of the true range against the true previous close —
is 26/7, giving the different target 119 + 52/7 = 885/7.  The first window
bar's true range is dropped by the source: the in-window shifted close is NaN
there, np.maximum propagates it and the pandas mean skips it. -/
theorem C7_counterexample :
    analyze c7frame none =
      some ⟨22/95, SignalType.BUY, 440/19, some 123, some 117⟩ ∧
    (123 : ℚ) ≠ 119 + 2 * atr_spec14 c7frame.high c7frame.low c7frame.close := by
  constructor
  · norm_num [analyze, analyzeFinalScore, analyze_trend, c7frame, c7closes, c7highs, c7lows,
      c7ma5, c7ma20, maCrossOfFrame, rsiOfFrame, macdOfFrame, bollingerOfFrame, volumeOfFrame,
      analyze_ma_cross, colLast, colPrev, pfLe, pfGe, pfGt, pfLt, lastN, qmean,
      get_signal_type, calculate_price_levels, zipWith3, trueRange, pyRound3, roundHalfEven,
      List.range_succ, List.zip, List.getLast?, List.filterMap_cons, min_def,
      abs_of_nonneg, Int.fract]
  · norm_num [atr_spec14, zipWith3, trueRange, lastN, c7frame, c7highs, c7lows, c7closes]

/-- C8: on the empty price series the classifier raises instead of degrading:
_analyze_trend hands np.polyfit an empty vector (and analyze reads
close.iloc[-1] of an empty frame), which raises.  The embedding models the
raise as `none`. -/
theorem C8_empty_series_raises :
    analyze ⟨[], [], [], none, none, none, none, none, none, none, none, none, none⟩ none
      = none ∧
    analyze_trend ([] : List ℚ) = none := by
  refine ⟨by norm_num [analyze, analyze_trend, lastN], by norm_num [analyze_trend, lastN]⟩

/-- C9 counterexample: the return score is flat (zero return part) below the
−10 percent floor and the risk score is flat (full volatility points) below the
10 percent volatility floor, so neither strict monotonicity asserted by the
claim for the whole region below the saturation ceiling holds. -/
theorem C9_counterexample :
    ¬ calc_return_score (-20) 1 < calc_return_score (-15) 1 ∧
    ¬ calc_risk_score 8 10 < calc_risk_score 5 10 := by
  refine ⟨by norm_num [calc_return_score], by norm_num [calc_risk_score]⟩

/-- C5: the aggregate-score classifier maps s ≥ 0.6 to STRONG_BUY with
confidence min(|s|·100, 95), 0.2 ≤ s < 0.6 to BUY with min(|s|·100, 80),
s ≤ −0.6 to STRONG_SELL, −0.6 < s ≤ −0.2 to SELL, and everything else to HOLD
with confidence exactly 50, with the stated boundary inclusivity. -/
theorem C5_category_mapping (s : ℚ) :
    (6/10 ≤ s → get_signal_type s = (SignalType.STRONG_BUY, min (|s| * 100) 95)) ∧
    (2/10 ≤ s ∧ s < 6/10 → get_signal_type s = (SignalType.BUY, min (|s| * 100) 80)) ∧
    (s ≤ -(6/10) → get_signal_type s = (SignalType.STRONG_SELL, min (|s| * 100) 95)) ∧
    (-(6/10) < s ∧ s ≤ -(2/10) → get_signal_type s = (SignalType.SELL, min (|s| * 100) 80)) ∧
    (-(2/10) < s ∧ s < 2/10 → get_signal_type s = (SignalType.HOLD, 50)) := by
  unfold get_signal_type
  refine ⟨fun h => ?_, fun h => ?_, fun h => ?_, fun h => ?_, fun h => ?_⟩ <;>
    split_ifs <;> first | rfl | (exfalso; linarith [h.1, h.2]) | (exfalso; linarith)

/-- C5 witness: the mapping evaluated at the boundary scores 0.6, 0.599999,
0.2 and 0.199999. -/
theorem C5_witness :
    get_signal_type (6/10) = (SignalType.STRONG_BUY, 60) ∧
    get_signal_type (599999/1000000) = (SignalType.BUY, 599999/10000) ∧
    get_signal_type (2/10) = (SignalType.BUY, 20) ∧
    get_signal_type (199999/1000000) = (SignalType.HOLD, 50) := by
  refine ⟨?_, ?_, ?_, ?_⟩
  · have h := (C5_category_mapping (6/10)).1 (by norm_num)
    rw [h]; norm_num [min_def, abs_of_nonneg]
  · have h := (C5_category_mapping (599999/1000000)).2.1 ⟨by norm_num, by norm_num⟩
    rw [h]; norm_num [min_def, abs_of_nonneg]
  · have h := (C5_category_mapping (2/10)).2.1 ⟨by norm_num, by norm_num⟩
    rw [h]; norm_num [min_def, abs_of_nonneg]
  · exact (C5_category_mapping (199999/1000000)).2.2.2.2 ⟨by norm_num, by norm_num⟩

/-- Clamp evaluates to the lower bound when the argument is below it. -/
theorem clampQ_of_le {x lo hi : ℚ} (h1 : x ≤ lo) (h2 : lo ≤ hi) : clampQ x lo hi = lo := by
  unfold clampQ
  rw [min_eq_left (h1.trans h2), max_eq_left h1]

/-- Clamp is the identity inside the interval. -/
theorem clampQ_of_mem {x lo hi : ℚ} (h1 : lo ≤ x) (h2 : x ≤ hi) : clampQ x lo hi = x := by
  unfold clampQ
  rw [min_eq_left h2, max_eq_right h1]

/-- Clamp evaluates to the upper bound when the argument is above it. -/
theorem clampQ_of_ge {x lo hi : ℚ} (h1 : hi ≤ x) (h2 : lo ≤ hi) : clampQ x lo hi = hi := by
  unfold clampQ
  rw [min_eq_right h1, max_eq_right h2]

/-- C4 amended: the risk score is vol_part + drawdown_part with
vol_part = clamp((50−volatility)/40·60, 0, 60) and
drawdown_part = clamp((40−max_drawdown)/35·40, 0, 40) computed from the signed
drawdown — no absolute value is taken, so a drawdown of −30 receives the full
40 drawdown points while +30 receives 80/7. -/
theorem C4_amended (v md : ℚ) :
    calc_risk_score v md =
      clampQ ((50 - v) / 40 * 60) 0 60 + clampQ ((40 - md) / 35 * 40) 0 40 := by
  simp only [calc_risk_score]
  congr 1
  · split_ifs with h1 h2
    · rw [clampQ_of_ge (by linarith) (by norm_num)]
    · rw [clampQ_of_le (by linarith) (by norm_num)]
    · rw [clampQ_of_mem (by linarith) (by linarith)]
  · split_ifs with h1 h2
    · rw [clampQ_of_ge (by linarith) (by norm_num)]
    · rw [clampQ_of_le (by linarith) (by norm_num)]
    · rw [clampQ_of_mem (by linarith) (by linarith)]

/-- C9 amended: the return score is strictly increasing in annual_return on
[−10, 30] (it is flat outside), and the risk score is strictly decreasing in
volatility on [10, 50] (flat outside), holding the other argument fixed. -/
theorem C9_amended (sh md a1 a2 v1 v2 : ℚ) :
    (-10 ≤ a1 → a1 < a2 → a2 ≤ 30 → calc_return_score a1 sh < calc_return_score a2 sh) ∧
    (10 ≤ v1 → v1 < v2 → v2 ≤ 50 → calc_risk_score v2 md < calc_risk_score v1 md) := by
  constructor
  · intro h1 h2 h3
    simp only [calc_return_score]
    have : (if 30 ≤ a1 then (20:ℚ) else if a1 ≤ -10 then 0 else (a1 + 10)/40*20) <
        (if 30 ≤ a2 then (20:ℚ) else if a2 ≤ -10 then 0 else (a2 + 10)/40*20) := by
      split_ifs <;> linarith
    linarith
  · intro h1 h2 h3
    simp only [calc_risk_score]
    have : (if v2 ≤ 10 then (60:ℚ) else if 50 ≤ v2 then 0 else (50 - v2)/40*60) <
        (if v1 ≤ 10 then (60:ℚ) else if 50 ≤ v1 then 0 else (50 - v1)/40*60) := by
      split_ifs <;> linarith
    linarith

/-- C9 witness: strict monotonicity evaluated at annual returns 0 < 10 and at
volatilities 20 < 40. -/
theorem C9_witness :
    calc_return_score 0 1 < calc_return_score 10 1 ∧
    calc_risk_score 40 10 < calc_risk_score 20 10 := by
  constructor
  · exact (C9_amended 1 10 0 10 0 0).1 (by norm_num) (by norm_num) (by norm_num)
  · exact (C9_amended 1 10 0 10 20 40).2 (by norm_num) (by norm_num) (by norm_num)

/-- MA-trend points are nonnegative. -/
theorem maPoints_nonneg (p : PF) (m5 m20 : ℚ) : 0 ≤ maPoints p m5 m20 := by
  unfold maPoints
  split_ifs <;> norm_num

/-- MA-trend points are at most 30. -/
theorem maPoints_le (p : PF) (m5 m20 : ℚ) : maPoints p m5 m20 ≤ 30 := by
  unfold maPoints
  split_ifs <;> norm_num

/-- RSI-band points are nonnegative. -/
theorem rsiPoints_nonneg (r : ℚ) : 0 ≤ rsiPoints r := by
  unfold rsiPoints
  split_ifs <;> norm_num

/-- RSI-band points are at most 30. -/
theorem rsiPoints_le (r : ℚ) : rsiPoints r ≤ 30 := by
  unfold rsiPoints
  split_ifs <;> norm_num

/-- MACD points are nonnegative. -/
theorem macdPoints_nonneg (m s : ℚ) : 0 ≤ macdPoints m s := by
  simp only [macdPoints]
  split_ifs <;> norm_num

/-- MACD points are at most 40. -/
theorem macdPoints_le (m s : ℚ) : macdPoints m s ≤ 40 := by
  simp only [macdPoints]
  split_ifs <;> norm_num

/-- The MA group contributes nonnegative points, at most 30 per counted
indicator, counts 0 or 1, and counts exactly 1 when both columns are defined. -/
theorem techGroup1_spec (cl : PF) (o5 o20 : Option ℚ) :
    0 ≤ (techGroup1 cl o5 o20).1 ∧ (techGroup1 cl o5 o20).1 ≤ 30 * (techGroup1 cl o5 o20).2 ∧
    ((techGroup1 cl o5 o20).2 = 0 ∨ (techGroup1 cl o5 o20).2 = 1) ∧
    (o5.isSome = true ∧ o20.isSome = true → (techGroup1 cl o5 o20).2 = 1) := by
  cases o5 with
  | none => simp [techGroup1]
  | some m5 =>
    cases o20 with
    | none => simp [techGroup1]
    | some m20 =>
      refine ⟨maPoints_nonneg _ _ _, ?_, Or.inr rfl, fun _ => rfl⟩
      simpa [techGroup1] using maPoints_le cl m5 m20

/-- The RSI group contributes nonnegative points, at most 30 per counted
indicator, counts 0 or 1, and counts exactly 1 when the column is defined. -/
theorem techGroup2_spec (o : Option ℚ) :
    0 ≤ (techGroup2 o).1 ∧ (techGroup2 o).1 ≤ 30 * (techGroup2 o).2 ∧
    ((techGroup2 o).2 = 0 ∨ (techGroup2 o).2 = 1) ∧
    (o.isSome = true → (techGroup2 o).2 = 1) := by
  cases o with
  | none => simp [techGroup2]
  | some x =>
    refine ⟨rsiPoints_nonneg _, ?_, Or.inr rfl, fun _ => rfl⟩
    simpa [techGroup2] using rsiPoints_le x

/-- The MACD group contributes nonnegative points, at most 40 per counted
indicator, counts 0 or 1, and counts exactly 1 when both columns are defined. -/
theorem techGroup3_spec (om os : Option ℚ) :
    0 ≤ (techGroup3 om os).1 ∧ (techGroup3 om os).1 ≤ 40 * (techGroup3 om os).2 ∧
    ((techGroup3 om os).2 = 0 ∨ (techGroup3 om os).2 = 1) ∧
    (om.isSome = true ∧ os.isSome = true → (techGroup3 om os).2 = 1) := by
  cases om with
  | none => simp [techGroup3]
  | some m =>
    cases os with
    | none => simp [techGroup3]
    | some s =>
      refine ⟨macdPoints_nonneg _ _, ?_, Or.inr rfl, fun _ => rfl⟩
      simpa [techGroup3] using macdPoints_le m s

/-- C10: whenever at least one indicator group is defined in the last row, the
technical score is at most 40, strictly below the 50 default, and with all
three groups defined it is at most 100/3, because the summed points (at most
30 + 30 + 40) are divided by the number of indicators present. -/
theorem C10_technical_cap (r : TechRow)
    (h : (r.ma5.isSome = true ∧ r.ma20.isSome = true) ∨ r.rsi.isSome = true ∨
      (r.macd.isSome = true ∧ r.signal.isSome = true)) :
    calc_technical_score (some r) ≤ 40 ∧ calc_technical_score (some r) < 50 ∧
    ((r.ma5.isSome = true ∧ r.ma20.isSome = true) ∧ r.rsi.isSome = true ∧
        (r.macd.isSome = true ∧ r.signal.isSome = true) →
      calc_technical_score (some r) ≤ 100/3) := by
  obtain ⟨h10, h11, h12, h13⟩ := techGroup1_spec r.close r.ma5 r.ma20
  obtain ⟨h20, h21, h22, h23⟩ := techGroup2_spec r.rsi
  obtain ⟨h30, h31, h32, h33⟩ := techGroup3_spec r.macd r.signal
  have e12 : (0:ℚ) ≤ (techGroup1 r.close r.ma5 r.ma20).2 := by rcases h12 with h | h <;> simp [h]

  have e22 : (0:ℚ) ≤ (techGroup2 r.rsi).2 := by rcases h22 with h | h <;> simp [h]
  have e32 : (0:ℚ) ≤ (techGroup3 r.macd r.signal).2 := by rcases h32 with h | h <;> simp [h]
  have hcnt : 1 ≤ (techGroup1 r.close r.ma5 r.ma20).2 + (techGroup2 r.rsi).2 +
      (techGroup3 r.macd r.signal).2 := by
    rcases h with hA | hB | hC
    · have := h13 hA
      linarith
    · have := h23 hB
      linarith
    · have := h33 hC
      linarith
  have hcpos : (0:ℚ) < (techGroup1 r.close r.ma5 r.ma20).2 + (techGroup2 r.rsi).2 +
      (techGroup3 r.macd r.signal).2 := by linarith
  have hscore : (techGroup1 r.close r.ma5 r.ma20).1 + (techGroup2 r.rsi).1 +
      (techGroup3 r.macd r.signal).1 ≤
      40 * ((techGroup1 r.close r.ma5 r.ma20).2 + (techGroup2 r.rsi).2 +
        (techGroup3 r.macd r.signal).2) := by linarith
  have hdiv : ((techGroup1 r.close r.ma5 r.ma20).1 + (techGroup2 r.rsi).1 +
      (techGroup3 r.macd r.signal).1) /
      ((techGroup1 r.close r.ma5 r.ma20).2 + (techGroup2 r.rsi).2 +
        (techGroup3 r.macd r.signal).2) ≤ 40 := by
    rw [div_le_iff₀ hcpos]
    linarith
  have hred : calc_technical_score (some r) =
      min 100 (((techGroup1 r.close r.ma5 r.ma20).1 + (techGroup2 r.rsi).1 +
        (techGroup3 r.macd r.signal).1) /
        ((techGroup1 r.close r.ma5 r.ma20).2 + (techGroup2 r.rsi).2 +
          (techGroup3 r.macd r.signal).2) * 100 / 100) := by
    simp only [calc_technical_score]
    rw [if_pos hcpos]
  have hsimp : ∀ x : ℚ, x * 100 / 100 = x := by intro x; ring
  rw [hred, hsimp]
  have hle40 : min 100 (((techGroup1 r.close r.ma5 r.ma20).1 + (techGroup2 r.rsi).1 +
      (techGroup3 r.macd r.signal).1) /
      ((techGroup1 r.close r.ma5 r.ma20).2 + (techGroup2 r.rsi).2 +
        (techGroup3 r.macd r.signal).2)) ≤ 40 := (min_le_right _ _).trans hdiv
  refine ⟨hle40, lt_of_le_of_lt hle40 (by norm_num), ?_⟩
  rintro ⟨hA, hB, hC⟩
  have e1 := h13 hA
  have e2 := h23 hB
  have e3 := h33 hC
  have hsum : (techGroup1 r.close r.ma5 r.ma20).1 + (techGroup2 r.rsi).1 +
      (techGroup3 r.macd r.signal).1 ≤ 100 := by
    rw [e1] at h11
    rw [e2] at h21
    rw [e3] at h31
    linarith
  have : ((techGroup1 r.close r.ma5 r.ma20).1 + (techGroup2 r.rsi).1 +
      (techGroup3 r.macd r.signal).1) /
      ((techGroup1 r.close r.ma5 r.ma20).2 + (techGroup2 r.rsi).2 +
        (techGroup3 r.macd r.signal).2) ≤ 100/3 := by
    rw [e1, e2, e3]
    rw [div_le_iff₀ (by norm_num : (0:ℚ) < 1 + 1 + 1)]
    linarith
  exact (min_le_right _ _).trans this

/-- C10 witness: a last row with only the RSI group defined. -/
theorem C10_witness :
    calc_technical_score (some ⟨some 50, none, none, some 50, none, none⟩) ≤ 40 ∧
    calc_technical_score (some ⟨some 50, none, none, some 50, none, none⟩) < 50 ∧
    ((Option.isSome (none : Option ℚ) = true ∧ Option.isSome (none : Option ℚ) = true) ∧
      Option.isSome (some (50 : ℚ)) = true ∧
      (Option.isSome (none : Option ℚ) = true ∧ Option.isSome (none : Option ℚ) = true) →
      calc_technical_score (some ⟨some 50, none, none, some 50, none, none⟩) ≤ 100/3) :=
  C10_technical_cap ⟨some 50, none, none, some 50, none, none⟩ (Or.inr (Or.inl rfl))

/-- The return score lies in [0, 100]. -/
theorem calc_return_score_bounds (ar sh : ℚ) :
    0 ≤ calc_return_score ar sh ∧ calc_return_score ar sh ≤ 100 := by
  simp only [calc_return_score]
  split_ifs <;> constructor <;> linarith

/-- The risk score lies in [0, 100]. -/
theorem calc_risk_score_bounds (v md : ℚ) :
    0 ≤ calc_risk_score v md ∧ calc_risk_score v md ≤ 100 := by
  simp only [calc_risk_score]
  split_ifs <;> constructor <;> linarith

/-- The fee score lies in [0, 100]. -/
theorem calc_fee_score_bounds (f : ℚ) :
    0 ≤ calc_fee_score f ∧ calc_fee_score f ≤ 100 := by
  simp only [calc_fee_score]
  split_ifs <;> constructor <;> linarith

/-- The technical score lies in [0, 100] for every input. -/
theorem calc_technical_score_bounds (df : Option TechRow) :
    0 ≤ calc_technical_score df ∧ calc_technical_score df ≤ 100 := by
  cases df with
  | none => norm_num [calc_technical_score]
  | some r =>
    obtain ⟨h10, h11, h12, h13⟩ := techGroup1_spec r.close r.ma5 r.ma20
    obtain ⟨h20, h21, h22, h23⟩ := techGroup2_spec r.rsi
    obtain ⟨h30, h31, h32, h33⟩ := techGroup3_spec r.macd r.signal
    simp only [calc_technical_score]
    split_ifs with hc
    · constructor
      · have hnum : 0 ≤ (techGroup1 r.close r.ma5 r.ma20).1 + (techGroup2 r.rsi).1 +
            (techGroup3 r.macd r.signal).1 := by linarith
        have : 0 ≤ ((techGroup1 r.close r.ma5 r.ma20).1 + (techGroup2 r.rsi).1 +
            (techGroup3 r.macd r.signal).1) /
            ((techGroup1 r.close r.ma5 r.ma20).2 + (techGroup2 r.rsi).2 +
              (techGroup3 r.macd r.signal).2) := div_nonneg hnum (le_of_lt hc)
        have h100 : (0:ℚ) ≤ 100 := by norm_num
        refine le_min h100 ?_
        calc (0:ℚ) ≤ _ := this
          _ = _ / _ * 100 / 100 := by ring
      · exact (min_le_left _ _)
    · norm_num

/-- C3 amended: provided the externally supplied liquidity score lies in
[0, 100] (the scorer passes it through unclamped), every sub-score of the
returned breakdown and the weighted total lie in [0, 100], for every strategy
and all real inputs. -/
theorem C3_amended (strat : ScoringStrategy) (ar sh vol md liq fee : ℚ)
    (df : Option TechRow) (hl0 : 0 ≤ liq) (hl1 : liq ≤ 100) :
    (0 ≤ (calculate_score strat ar sh vol md liq fee df).return_score ∧
      (calculate_score strat ar sh vol md liq fee df).return_score ≤ 100) ∧
    (0 ≤ (calculate_score strat ar sh vol md liq fee df).risk_score ∧
      (calculate_score strat ar sh vol md liq fee df).risk_score ≤ 100) ∧
    (0 ≤ (calculate_score strat ar sh vol md liq fee df).liquidity_score ∧
      (calculate_score strat ar sh vol md liq fee df).liquidity_score ≤ 100) ∧
    (0 ≤ (calculate_score strat ar sh vol md liq fee df).fee_score ∧
      (calculate_score strat ar sh vol md liq fee df).fee_score ≤ 100) ∧
    (0 ≤ (calculate_score strat ar sh vol md liq fee df).technical_score ∧
      (calculate_score strat ar sh vol md liq fee df).technical_score ≤ 100) ∧
    (0 ≤ (calculate_score strat ar sh vol md liq fee df).total_score ∧
      (calculate_score strat ar sh vol md liq fee df).total_score ≤ 100) := by
  obtain ⟨hr0, hr1⟩ := calc_return_score_bounds ar sh
  obtain ⟨hk0, hk1⟩ := calc_risk_score_bounds vol md
  obtain ⟨hf0, hf1⟩ := calc_fee_score_bounds fee
  obtain ⟨ht0, ht1⟩ := calc_technical_score_bounds df
  simp only [calculate_score]
  refine ⟨⟨hr0, hr1⟩, ⟨hk0, hk1⟩, ⟨hl0, hl1⟩, ⟨hf0, hf1⟩, ⟨ht0, ht1⟩, ?_⟩
  cases strat <;> simp only [strategyWeights] <;> constructor <;> linarith

/-- C3 witness: the bounds evaluated for the BALANCED strategy at concrete
inputs with liquidity 80. -/
theorem C3_witness :
    (0 ≤ (calculate_score ScoringStrategy.BALANCED 10 1 20 10 80 (3/10) none).return_score ∧
      (calculate_score ScoringStrategy.BALANCED 10 1 20 10 80 (3/10) none).return_score ≤ 100) ∧
    (0 ≤ (calculate_score ScoringStrategy.BALANCED 10 1 20 10 80 (3/10) none).risk_score ∧
      (calculate_score ScoringStrategy.BALANCED 10 1 20 10 80 (3/10) none).risk_score ≤ 100) ∧
    (0 ≤ (calculate_score ScoringStrategy.BALANCED 10 1 20 10 80 (3/10) none).liquidity_score ∧
      (calculate_score ScoringStrategy.BALANCED 10 1 20 10 80 (3/10) none).liquidity_score ≤ 100) ∧
    (0 ≤ (calculate_score ScoringStrategy.BALANCED 10 1 20 10 80 (3/10) none).fee_score ∧
      (calculate_score ScoringStrategy.BALANCED 10 1 20 10 80 (3/10) none).fee_score ≤ 100) ∧
    (0 ≤ (calculate_score ScoringStrategy.BALANCED 10 1 20 10 80 (3/10) none).technical_score ∧
      (calculate_score ScoringStrategy.BALANCED 10 1 20 10 80 (3/10) none).technical_score ≤ 100) ∧
    (0 ≤ (calculate_score ScoringStrategy.BALANCED 10 1 20 10 80 (3/10) none).total_score ∧
      (calculate_score ScoringStrategy.BALANCED 10 1 20 10 80 (3/10) none).total_score ≤ 100) :=
  C3_amended ScoringStrategy.BALANCED 10 1 20 10 80 (3/10) none (by norm_num) (by norm_num)

/-- Every MA-cross sub-score lies in [−1, 1]. -/
theorem analyze_ma_cross_bound (n : ℕ) (a b c d : PF) :
    -1 ≤ (analyze_ma_cross n a b c d).2 ∧ (analyze_ma_cross n a b c d).2 ≤ 1 := by
  simp only [analyze_ma_cross]
  split_ifs <;> norm_num

/-- Every RSI sub-score lies in [−1, 1]. -/
theorem analyze_rsi_bound (x : PF) :
    -1 ≤ (analyze_rsi x).2 ∧ (analyze_rsi x).2 ≤ 1 := by
  cases x with
  | none => simp [analyze_rsi]
  | some r =>
    simp only [analyze_rsi]
    split_ifs <;> norm_num

/-- Every MACD sub-score lies in [−1, 1]. -/
theorem analyze_macd_bound (n : ℕ) (a b c d e : PF) :
    -1 ≤ (analyze_macd n a b c d e).2 ∧ (analyze_macd n a b c d e).2 ≤ 1 := by
  simp only [analyze_macd]
  split_ifs <;> norm_num

/-- Every Bollinger sub-score lies in [−1, 1]. -/
theorem analyze_bollinger_bound (p : ℚ) (u l m : PF) :
    -1 ≤ (analyze_bollinger p u l m).2 ∧ (analyze_bollinger p u l m).2 ≤ 1 := by
  simp only [analyze_bollinger]
  split_ifs <;> norm_num

/-- Every volume sub-score lies in [−1, 1]. -/
theorem analyze_volume_bound (v c : List ℚ) :
    -1 ≤ (analyze_volume v c).2 ∧ (analyze_volume v c).2 ≤ 1 := by
  simp only [analyze_volume]
  split_ifs <;> norm_num

/-- Every premium sub-score lies in [−1, 1]. -/
theorem analyze_premium_bound (p : ℚ) :
    -1 ≤ (analyze_premium p).2 ∧ (analyze_premium p).2 ≤ 1 := by
  simp only [analyze_premium]
  split_ifs <;> norm_num

/-- Frame-level MA-cross sub-score bound. -/
theorem maCrossOfFrame_bound (f : Frame) :
    -1 ≤ (maCrossOfFrame f).2 ∧ (maCrossOfFrame f).2 ≤ 1 := by
  cases h5 : f.ma5 with
  | none => simp [maCrossOfFrame, h5]
  | some c5 =>
    cases h20 : f.ma20 with
    | none => simp [maCrossOfFrame, h5, h20]
    | some c20 =>
      simp only [maCrossOfFrame, h5, h20]
      exact analyze_ma_cross_bound _ _ _ _ _

/-- Frame-level RSI sub-score bound. -/
theorem rsiOfFrame_bound (f : Frame) :
    -1 ≤ (rsiOfFrame f).2 ∧ (rsiOfFrame f).2 ≤ 1 := by
  cases hr : f.rsi with
  | none => simp [rsiOfFrame, hr]
  | some c =>
    simp only [rsiOfFrame, hr]
    exact analyze_rsi_bound _

/-- Frame-level MACD sub-score bound. -/
theorem macdOfFrame_bound (f : Frame) :
    -1 ≤ (macdOfFrame f).2 ∧ (macdOfFrame f).2 ≤ 1 := by
  cases hm : f.macd with
  | none => simp [macdOfFrame, hm]
  | some cm =>
    cases hs : f.signal with
    | none => simp [macdOfFrame, hm, hs]
    | some cs =>
      simp only [macdOfFrame, hm, hs]
      exact analyze_macd_bound _ _ _ _ _ _

/-- Frame-level Bollinger sub-score bound. -/
theorem bollingerOfFrame_bound (f : Frame) :
    -1 ≤ (bollingerOfFrame f).2 ∧ (bollingerOfFrame f).2 ≤ 1 := by
  cases hu : f.bbUpper with
  | none => simp [bollingerOfFrame, hu]
  | some cu =>
    cases hl : f.bbLower with
    | none => simp [bollingerOfFrame, hu, hl]
    | some cl =>
      simp only [bollingerOfFrame, hu, hl]
      exact analyze_bollinger_bound _ _ _ _

/-- Frame-level volume sub-score bound. -/
theorem volumeOfFrame_bound (f : Frame) :
    -1 ≤ (volumeOfFrame f).2 ∧ (volumeOfFrame f).2 ≤ 1 := by
  cases hv : f.volume with
  | none => simp [volumeOfFrame, hv]
  | some v =>
    simp only [volumeOfFrame, hv]
    exact analyze_volume_bound _ _

/-- The trend sub-score (with its neutral default) lies in [−1, 1]. -/
theorem trendScoreD_bound (f : Frame) :
    -1 ≤ trendScoreD f ∧ trendScoreD f ≤ 1 := by
  simp only [trendScoreD, analyze_trend]
  split_ifs <;> norm_num [Option.getD]

/-- C6: for every analysis call that completes, the final score is the weighted
sum of the sub-scores with the fixed weights {ma_cross 20, rsi 15, macd 20,
bollinger 15, trend 15, volume 10, premium 5}, divided by 100 when a premium
rate is supplied and by 95 when it is not, and it always lies in [−1, 1]. -/
theorem C6_weighted_aggregation (f : Frame) (pr : Option ℚ) (r : AnalysisResult)
    (h : analyze f pr = some r) :
    r.finalScore =
      ((maCrossOfFrame f).2 * 20 + (rsiOfFrame f).2 * 15 + (macdOfFrame f).2 * 20 +
        (bollingerOfFrame f).2 * 15 + trendScoreD f * 15 + (volumeOfFrame f).2 * 10 +
        (match pr with
         | some p => (analyze_premium p).2 * 5
         | none => 0)) /
        (match pr with
         | some _ => (100 : ℚ)
         | none => 95) ∧
    -1 ≤ r.finalScore ∧ r.finalScore ≤ 1 := by
  cases htr : analyze_trend f.close with
  | none =>
    rw [analyze.eq_def] at h
    rw [htr] at h
    exact absurd h (by simp)
  | some ts =>
    rw [analyze.eq_def] at h
    rw [htr] at h
    simp only at h
    obtain rfl := (Option.some.inj h).symm
    have htd : trendScoreD f = ts.2 := by simp [trendScoreD, htr]
    constructor
    · simp only [htd]
      cases pr <;> rfl
    · obtain ⟨b1l, b1r⟩ := maCrossOfFrame_bound f
      obtain ⟨b2l, b2r⟩ := rsiOfFrame_bound f
      obtain ⟨b3l, b3r⟩ := macdOfFrame_bound f
      obtain ⟨b4l, b4r⟩ := bollingerOfFrame_bound f
      obtain ⟨b5l, b5r⟩ := volumeOfFrame_bound f
      have hts : -1 ≤ ts.2 ∧ ts.2 ≤ 1 := by
        have := trendScoreD_bound f
        rwa [htd] at this
      obtain ⟨b6l, b6r⟩ := hts
      cases pr with
      | none =>
        simp only [analyzeFinalScore]
        constructor
        · rw [le_div_iff₀ (by norm_num : (0:ℚ) < 95)]
          linarith
        · rw [div_le_one (by norm_num : (0:ℚ) < 95)]
          linarith
      | some p =>
        obtain ⟨b7l, b7r⟩ := analyze_premium_bound p
        simp only [analyzeFinalScore]
        constructor
        · rw [le_div_iff₀ (by norm_num : (0:ℚ) < 100)]
          linarith
        · rw [div_le_one (by norm_num : (0:ℚ) < 100)]
          linarith

/-- C6 witness: the aggregation evaluated on a two-bar rising frame without
indicator columns and without a premium rate. -/
theorem C6_witness :
    (AnalysisResult.mk (12/95) SignalType.HOLD 50 none none).finalScore =
      ((maCrossOfFrame c6frame).2 * 20 + (rsiOfFrame c6frame).2 * 15 +
        (macdOfFrame c6frame).2 * 20 + (bollingerOfFrame c6frame).2 * 15 +
        trendScoreD c6frame * 15 + (volumeOfFrame c6frame).2 * 10 + 0) / 95 ∧
    -1 ≤ (AnalysisResult.mk (12/95) SignalType.HOLD 50 none none).finalScore ∧
    (AnalysisResult.mk (12/95) SignalType.HOLD 50 none none).finalScore ≤ 1 :=
  C6_weighted_aggregation c6frame none ⟨12/95, SignalType.HOLD, 50, none, none⟩ (by
    norm_num [analyze, analyzeFinalScore, analyze_trend, c6frame, maCrossOfFrame, rsiOfFrame, macdOfFrame,
      bollingerOfFrame, volumeOfFrame, lastN, qmean, get_signal_type, calculate_price_levels,
      List.range_succ, List.zip, List.getLast?, min_def, abs_of_nonneg])

/-- The mean of a constant list is its value. -/
theorem qmean_replicate (n : ℕ) (x : ℚ) (h : 0 < n) :
    qmean (List.replicate n x) = x := by
  have hn : (n : ℚ) ≠ 0 := by exact_mod_cast Nat.pos_iff_ne_zero.mp h
  simp [qmean, List.sum_replicate, nsmul_eq_mul]
  field_simp

/-- The sample variance of a constant list is 0 (NaN below two entries). -/
theorem sampleVar_replicate (n : ℕ) (x : ℚ) :
    sampleVar (List.replicate n x) = if n < 2 then none else some 0 := by
  by_cases h : n < 2
  · simp [sampleVar, h]
  · have hp : 0 < n := by omega
    rw [sampleVar]
    rw [if_neg (by simpa using h)]
    rw [if_neg h]
    congr 1
    rw [qmean_replicate n x hp]
    simp [List.map_replicate, List.sum_replicate]

/-- The tail of a constant list is constant. -/
theorem lastN_replicate (k n : ℕ) (x : ℚ) :
    lastN k (List.replicate n x) = List.replicate (min k n) x := by
  simp only [lastN, List.drop_replicate, List.length_replicate]
  congr 1
  omega

/-- The last rolling mean of a constant series is its value once the window is
filled, NaN before. -/
theorem rollingMeanLast_replicate (w n : ℕ) (x : ℚ) (hw : 0 < w) :
    rollingMeanLast w (List.replicate n x) = if w ≤ n then some x else none := by
  by_cases h : w ≤ n
  · rw [rollingMeanLast, if_pos (by simpa using ⟨h, hw⟩), lastN_replicate]
    rw [if_pos h]
    congr 1
    rw [min_eq_left h] 
    exact qmean_replicate w x hw
  · rw [rollingMeanLast, if_neg (by simp; omega), if_neg h]

/-- The last rolling variance of a constant series is 0 once the 20-window is
filled, NaN before. -/
theorem rollingVarLast_replicate (n : ℕ) (x : ℚ) :
    rollingVarLast 20 (List.replicate n x) = if 20 ≤ n then some 0 else none := by
  by_cases h : 20 ≤ n
  · rw [rollingVarLast, if_pos (by simpa using h), lastN_replicate, min_eq_left h,
      sampleVar_replicate, if_neg (by omega), if_pos h]
  · rw [rollingVarLast, if_neg (by simpa using h), if_neg h]

/-- The last element of a nonempty constant list is its value. -/
theorem getLastD_replicate (n : ℕ) (x : ℚ) (h : 0 < n) :
    ((List.replicate n x).getLast?).getD 0 = x := by
  cases n with
  | zero => omega
  | succ m => simp [List.getLast?_replicate]

/-- No strict float comparison holds between two cells that each are either one
common value or NaN. -/
theorem pfGt_same (a b : PF) (c : ℚ) (ha : a = some c ∨ a = none) (hb : b = some c ∨ b = none) :
    pfGt a b = false ∧ pfLt a b = false := by
  rcases ha with h1 | h1 <;> rcases hb with h2 | h2 <;>
    simp [h1, h2, pfGt, pfLt]

/-- The MA-cross analyzer is NEUTRAL whenever neither strict comparison between
the last MA5 and MA20 cells holds: every branch of the cascade requires one of
them. -/
theorem analyze_ma_cross_no_strict (n : ℕ) (a b c d : PF)
    (h1 : pfGt a b = false) (h2 : pfLt a b = false) :
    analyze_ma_cross n a b c d = (IndicatorSignal.NEUTRAL, 0) := by
  simp only [analyze_ma_cross]
  simp [h1, h2]

/-- Daily returns of a constant series are all zero (one fewer than the bars). -/
theorem pctChanges_replicate (c : ℚ) : ∀ n : ℕ,
    pctChanges (List.replicate n c) = List.replicate (n - 1) (0:ℚ)
  | 0 => rfl
  | 1 => rfl
  | n + 2 => by
    have ih := pctChanges_replicate c (n + 1)
    have h1 : List.replicate (n + 2) c = c :: c :: List.replicate n c := by
      simp [List.replicate_succ]
    have h2 : List.replicate (n + 1) c = c :: List.replicate n c := by
      simp [List.replicate_succ]
    rw [h1, pctChanges]
    rw [h2] at ih
    rw [ih]
    have hz : (c - c) / c = 0 := by simp
    rw [hz]
    simp [List.replicate_succ]

/-- C2 amended: for every constant positive-price series of n ≥ 2 bars carrying
its computed indicator columns, the sample variance of the daily returns — and
with it the annualized volatility — is 0 for n ≥ 3 and undefined (NaN) for
n = 2; the Sharpe guard `volatility > 0` is false, so the source returns a
Sharpe ratio of exactly 0; the MA-cross sub-signal is NEUTRAL 0; and the
Bollinger sub-signal is NEUTRAL 0 while the bands are undefined (n < 20) but
BULLISH 0.8 once they are defined (n ≥ 20), because the zero-width band makes
the price touch the lower band.  The positivity hypothesis keeps the rational
embedding aligned with float semantics (a zero price would give NaN returns in
pandas). -/
theorem C2_amended (n : ℕ) (c : ℚ) (hn : 2 ≤ n) (_hc : 0 < c) :
    (3 ≤ n → sampleVar (pctChanges (List.replicate n c)) = some 0) ∧
    (n = 2 → sampleVar (pctChanges (List.replicate n c)) = none) ∧
    sharpeVolGuard (List.replicate n c) = false ∧
    maCrossOnSeries (List.replicate n c) = (IndicatorSignal.NEUTRAL, 0) ∧
    (n < 20 → bollingerOnSeries (List.replicate n c) = (IndicatorSignal.NEUTRAL, 0)) ∧
    (20 ≤ n → bollingerOnSeries (List.replicate n c) = (IndicatorSignal.BULLISH, 8/10)) := by
  have hret : pctChanges (List.replicate n c) = List.replicate (n - 1) (0:ℚ) :=
    pctChanges_replicate c n
  have hvar : sampleVar (pctChanges (List.replicate n c)) =
      if n - 1 < 2 then none else some 0 := by
    rw [hret, sampleVar_replicate]
  constructor
  · intro h3
    rw [hvar, if_neg (by omega)]
  constructor
  · intro h2
    subst h2
    rw [hvar]
    norm_num
  constructor
  · rw [sharpeVolGuard, hvar]
    split_ifs <;> simp [pfLt]
  constructor
  · have hm5 := rollingMeanLast_replicate 5 n c (by norm_num)
    have hm20 := rollingMeanLast_replicate 20 n c (by norm_num)
    have hd : (List.replicate n c).dropLast = List.replicate (n - 1) c := by
      simp [List.dropLast_replicate]
    have hm5p := rollingMeanLast_replicate 5 (n - 1) c (by norm_num)
    have hm20p := rollingMeanLast_replicate 20 (n - 1) c (by norm_num)
    rw [maCrossOnSeries, hd, hm5, hm20, hm5p, hm20p]
    have hgl : ∀ m : ℕ, (if 5 ≤ m then some c else none) = some c ∨
        (if 5 ≤ m then some c else none) = none := by
      intro m
      split_ifs <;> simp
    have hgl20 : ∀ m : ℕ, (if 20 ≤ m then some c else none) = some c ∨
        (if 20 ≤ m then some c else none) = none := by
      intro m
      split_ifs <;> simp
    obtain ⟨hg, hl⟩ := pfGt_same _ _ c (hgl n) (hgl20 n)
    exact analyze_ma_cross_no_strict _ _ _ _ _ hg hl
  constructor
  · intro hlt
    rw [bollingerOnSeries.eq_def, rollingMeanLast_replicate 20 n c (by norm_num),
      if_neg (by omega), rollingVarLast_replicate, if_neg (by omega)]
  · intro hge
    rw [bollingerOnSeries.eq_def, rollingMeanLast_replicate 20 n c (by norm_num),
      if_pos hge, rollingVarLast_replicate, if_pos hge]
    simp only
    rw [getLastD_replicate n c (by omega)]
    rw [if_pos (by constructor <;> simp)]

/-- C2 witness: the amended statement evaluated on twenty bars at price 10. -/
theorem C2_witness :
    (3 ≤ 20 → sampleVar (pctChanges (List.replicate 20 (10:ℚ))) = some 0) ∧
    ((20:ℕ) = 2 → sampleVar (pctChanges (List.replicate 20 (10:ℚ))) = none) ∧
    sharpeVolGuard (List.replicate 20 (10:ℚ)) = false ∧
    maCrossOnSeries (List.replicate 20 (10:ℚ)) = (IndicatorSignal.NEUTRAL, 0) ∧
    ((20:ℕ) < 20 → bollingerOnSeries (List.replicate 20 (10:ℚ)) = (IndicatorSignal.NEUTRAL, 0)) ∧
    ((20:ℕ) ≤ 20 → bollingerOnSeries (List.replicate 20 (10:ℚ)) = (IndicatorSignal.BULLISH, 8/10)) :=
  C2_amended 20 10 (by norm_num) (by norm_num)

/-- Length of a three-way zip. -/
theorem length_zipWith3 (f : α → β → γ → δ) :
    ∀ (a : List α) (b : List β) (c : List γ),
      (zipWith3 f a b c).length = min a.length (min b.length c.length)
  | [], b, c => by simp [zipWith3]
  | a0 :: at', [], c => by simp [zipWith3]
  | a0 :: at', b0 :: bt, [] => by simp [zipWith3]
  | a0 :: at', b0 :: bt, c0 :: ct => by
    simp only [zipWith3, List.length_cons, length_zipWith3 f at' bt ct]
    omega

/-- Dropping the Option layer from a true-range zip whose shifted closes are all
defined. -/
theorem filterMap_zipWith3_somes :
    ∀ (h l c : List ℚ),
      (zipWith3 (fun hi lo cs => cs.map (fun cp => trueRange hi lo cp)) h l
        (c.map some)).filterMap id = zipWith3 trueRange h l c
  | [], l, c => by simp [zipWith3]
  | h0 :: ht, [], c => by simp [zipWith3]
  | h0 :: ht, l0 :: lt, [] => by simp [zipWith3]
  | h0 :: ht, l0 :: lt, c0 :: ct => by
    simp only [List.map_cons, zipWith3, List.filterMap_cons, Option.map_some', id_eq]
    rw [filterMap_zipWith3_somes ht lt ct]

/-- The pandas skipna mean sees exactly the true ranges paired with in-window
previous closes: the leading NaN of the shifted close column is dropped. -/
theorem filterMap_zipWith3_shift (h l c : List ℚ) :
    (zipWith3 (fun hi lo cs => cs.map (fun cp => trueRange hi lo cp)) h l
      (none :: c.map some)).filterMap id =
    zipWith3 trueRange (h.drop 1) (l.drop 1) c := by
  cases h with
  | nil => simp [zipWith3]
  | cons h0 ht =>
    cases l with
    | nil => simp [zipWith3]
    | cons l0 lt =>
      simp only [zipWith3, List.filterMap_cons, Option.map_none', List.drop_one,
        List.tail_cons, id_eq]
      exact filterMap_zipWith3_somes ht lt c

/-- The trailing window has full length once the series is long enough. -/
theorem length_lastN (k : ℕ) (xs : List ℚ) (h : k ≤ xs.length) :
    (lastN k xs).length = k := by
  simp [lastN]
  omega

/-- The ATR computed by _calculate_price_levels equals the mean of the 13 true
ranges formed inside the trailing 14-bar window. -/
theorem atr_code_eq_trailing13 (highs lows closes : List ℚ)
    (hh : highs.length = closes.length) (hl : lows.length = closes.length)
    (hn : 14 ≤ closes.length) :
    qmean ((zipWith3 (fun hi lo cs => cs.map (fun cp => trueRange hi lo cp))
        (lastN 14 highs) (lastN 14 lows)
        (none :: (lastN 14 closes).dropLast.map some)).filterMap id) =
      atr_trailing13 highs lows closes := by
  rw [filterMap_zipWith3_shift]
  rw [qmean, atr_trailing13]
  have hlen : (zipWith3 trueRange ((lastN 14 highs).drop 1) ((lastN 14 lows).drop 1)
      ((lastN 14 closes).dropLast)).length = 13 := by
    rw [length_zipWith3]
    simp [length_lastN 14 highs (by omega), length_lastN 14 lows (by omega),
      length_lastN 14 closes (by omega)]
  rw [hlen]
  norm_num

/-- C7 amended: for every completed analysis, a HOLD category or fewer than 14
bars gives no price levels; with at least 14 bars, BUY and STRONG_BUY give
target round3(close + 2·ATR) and stop round3(close − ATR), SELL and STRONG_SELL
the mirrored levels — where ATR is the mean of the 13 true ranges formed inside
the trailing 14-bar window (the window's first bar contributes none, its
previous close being outside the window) and round3 is rounding to three
decimals, half to even. -/
theorem C7_amended (f : Frame) (pr : Option ℚ) (r : AnalysisResult)
    (hh : f.high.length = f.close.length) (hl : f.low.length = f.close.length)
    (h : analyze f pr = some r) :
    (f.close.length < 14 → r.priceTarget = none ∧ r.stopLoss = none) ∧
    (r.category = SignalType.HOLD → r.priceTarget = none ∧ r.stopLoss = none) ∧
    (14 ≤ f.close.length →
      (r.category = SignalType.BUY ∨ r.category = SignalType.STRONG_BUY) →
      r.priceTarget = some (pyRound3 (f.close.getLast?.getD 0 +
          2 * atr_trailing13 f.high f.low f.close)) ∧
        r.stopLoss = some (pyRound3 (f.close.getLast?.getD 0 -
          atr_trailing13 f.high f.low f.close))) ∧
    (14 ≤ f.close.length →
      (r.category = SignalType.SELL ∨ r.category = SignalType.STRONG_SELL) →
      r.priceTarget = some (pyRound3 (f.close.getLast?.getD 0 -
          2 * atr_trailing13 f.high f.low f.close)) ∧
        r.stopLoss = some (pyRound3 (f.close.getLast?.getD 0 +
          atr_trailing13 f.high f.low f.close))) := by
  cases htr : analyze_trend f.close with
  | none =>
    rw [analyze.eq_def, htr] at h
    exact absurd h (by simp)
  | some ts =>
    rw [analyze.eq_def, htr] at h
    simp only at h
    generalize hS : analyzeFinalScore f pr ts.2 = S at h
    obtain rfl := (Option.some.inj h).symm
    have hatr := atr_code_eq_trailing13 f.high f.low f.close hh hl
    refine ⟨?_, ?_, ?_, ?_⟩
    · intro h14
      constructor <;> simp [calculate_price_levels, h14]
    · intro hcat
      rw [show ((⟨S, (get_signal_type S).1, (get_signal_type S).2, _, _⟩ :
        AnalysisResult)).category = (get_signal_type S).1 from rfl] at hcat
      constructor <;>
        (simp only [calculate_price_levels, hcat]
         split_ifs <;> rfl)
    · intro h14 hbuy
      have hq := hatr h14
      rw [show ((⟨S, (get_signal_type S).1, (get_signal_type S).2, _, _⟩ :
        AnalysisResult)).category = (get_signal_type S).1 from rfl] at hbuy
      rcases hbuy with hb | hb <;>
        (constructor <;>
          (simp only [calculate_price_levels, hb]
           rw [if_neg (by omega)]
           simp only [hq]))
    · intro h14 hsell
      have hq := hatr h14
      rw [show ((⟨S, (get_signal_type S).1, (get_signal_type S).2, _, _⟩ :
        AnalysisResult)).category = (get_signal_type S).1 from rfl] at hsell
      rcases hsell with hb | hb <;>
        (constructor <;>
          (simp only [calculate_price_levels, hb]
           rw [if_neg (by omega)]
           simp only [hq]))

set_option maxHeartbeats 2000000 in
/-- C7 witness: the amended price-level rule evaluated on the 20-bar BUY frame
`c7frame`. -/
theorem C7_witness :
    (c7frame.close.length < 14 →
      (AnalysisResult.mk (22/95) SignalType.BUY (440/19) (some 123) (some 117)).priceTarget = none ∧
      (AnalysisResult.mk (22/95) SignalType.BUY (440/19) (some 123) (some 117)).stopLoss = none) ∧
    ((AnalysisResult.mk (22/95) SignalType.BUY (440/19) (some 123) (some 117)).category =
        SignalType.HOLD →
      (AnalysisResult.mk (22/95) SignalType.BUY (440/19) (some 123) (some 117)).priceTarget = none ∧
      (AnalysisResult.mk (22/95) SignalType.BUY (440/19) (some 123) (some 117)).stopLoss = none) ∧
    (14 ≤ c7frame.close.length →
      ((AnalysisResult.mk (22/95) SignalType.BUY (440/19) (some 123) (some 117)).category =
          SignalType.BUY ∨
        (AnalysisResult.mk (22/95) SignalType.BUY (440/19) (some 123) (some 117)).category =
          SignalType.STRONG_BUY) →
      (AnalysisResult.mk (22/95) SignalType.BUY (440/19) (some 123) (some 117)).priceTarget =
        some (pyRound3 (c7frame.close.getLast?.getD 0 +
          2 * atr_trailing13 c7frame.high c7frame.low c7frame.close)) ∧
      (AnalysisResult.mk (22/95) SignalType.BUY (440/19) (some 123) (some 117)).stopLoss =
        some (pyRound3 (c7frame.close.getLast?.getD 0 -
          atr_trailing13 c7frame.high c7frame.low c7frame.close))) ∧
    (14 ≤ c7frame.close.length →
      ((AnalysisResult.mk (22/95) SignalType.BUY (440/19) (some 123) (some 117)).category =
          SignalType.SELL ∨
        (AnalysisResult.mk (22/95) SignalType.BUY (440/19) (some 123) (some 117)).category =
          SignalType.STRONG_SELL) →
      (AnalysisResult.mk (22/95) SignalType.BUY (440/19) (some 123) (some 117)).priceTarget =
        some (pyRound3 (c7frame.close.getLast?.getD 0 -
          2 * atr_trailing13 c7frame.high c7frame.low c7frame.close)) ∧
      (AnalysisResult.mk (22/95) SignalType.BUY (440/19) (some 123) (some 117)).stopLoss =
        some (pyRound3 (c7frame.close.getLast?.getD 0 +
          atr_trailing13 c7frame.high c7frame.low c7frame.close))) :=
  C7_amended c7frame none ⟨22/95, SignalType.BUY, 440/19, some 123, some 117⟩ rfl rfl (by
    norm_num [analyze, analyzeFinalScore, analyze_trend, c7frame, c7closes, c7highs, c7lows,
      c7ma5, c7ma20, maCrossOfFrame, rsiOfFrame, macdOfFrame, bollingerOfFrame, volumeOfFrame,
      analyze_ma_cross, colLast, colPrev, pfLe, pfGe, pfGt, pfLt, lastN, qmean,
      get_signal_type, calculate_price_levels, zipWith3, trueRange, pyRound3, roundHalfEven,
      List.range_succ, List.zip, List.getLast?, List.filterMap_cons, min_def,
      abs_of_nonneg, Int.fract])
